import Mathlib

/-!
Shallow embedding of the SPIRE federated-bundle service
(pkg/server/api/bundle/v1/service.go together with the shared status
helpers), of the coalescing SVID distribution pipe, and of the agent
credential accessor (pkg/agent/svid/rotator_config.go), with proofs of
the specification claims about them.

External collaborators (the go-spiffe trust-domain type, the datastore,
and the proto message types) are modelled as plain Lean structures and
function parameters; the service, pipe and accessor logic is translated
statement by statement from the Go source.
-/

set_option maxRecDepth 4096

deriving instance DecidableEq for Except

namespace SpireSpec

/-- Byte strings (Go `[]byte`) are modelled as lists of naturals. -/
abbrev Bytes := List Nat

/-- gRPC status codes (google.golang.org/grpc/codes) used by the verified code. -/
inductive StatusCode where
  | ok
  | invalidArgument
  | notFound
  | internal
  | unimplemented
  | unknown
  deriving DecidableEq, Repr

/-- A gRPC status error, as produced by `status.Error` / `status.Errorf`:
a code together with a message. -/
structure GrpcStatus where
  code : StatusCode
  message : String
  deriving DecidableEq, Repr

/-- Model of the go-spiffe `spiffeid.TrustDomain`: the canonical trust-domain
name (host part, without the `spiffe://` scheme).  `Compare(td) == 0` in the
Go code is equality of the canonical names, which is plain equality here. -/
structure TrustDomain where
  name : String
  deriving DecidableEq, Repr

/-- Model of the Go `TrustDomain.String()`: the canonical name without scheme. -/
def TrustDomain.toStr (td : TrustDomain) : String := td.name

/-- Model of the Go `TrustDomain.IDString()`: the SPIFFE URI of the trust
domain, i.e. the canonical name with the `spiffe://` scheme prefix. -/
def TrustDomain.idString (td : TrustDomain) : String := ("spiffe://") ++ td.name

/-- Characters allowed in a trust-domain name by the go-spiffe parser model:
lowercase letters, digits, dots, dashes and underscores. -/
def isValidTDChar (c : Char) : Bool :=
  c.isLower || c.isDigit || c = '.' || c = '-' || c = '_'

/-- Model of go-spiffe `spiffeid.TrustDomainFromString` (external library):
an optional `spiffe://` scheme prefix is stripped, and the remaining name
must be non-empty and consist of valid trust-domain characters; anything
else (for instance a string containing a space) fails to parse.  Parsing
`"spiffe://example.org"` and `"example.org"` yields the same canonical
trust domain. -/
def trustDomainFromString (s : String) : Option TrustDomain :=
  let cs := if s.data.take 9 = ("spiffe://").data then s.data.drop 9 else s.data
  if !cs.isEmpty && cs.all isValidTDChar then some ⟨String.mk cs⟩ else none

/-- proto common.Certificate: a DER-encoded certificate. -/
structure CommonCertificate where
  derBytes : Bytes
  deriving DecidableEq, Repr

/-- proto common.PublicKey: a JWT signing key record. -/
structure CommonPublicKey where
  kid : String
  notAfter : Int
  pkixBytes : Bytes
  deriving DecidableEq, Repr

/-- proto common.Bundle as stored in the repository.  Following the spec's
data model, the stored bundle also carries a sequence number; the service
code under verification never reads it. -/
structure CommonBundle where
  trustDomainId : String
  refreshHint : Int
  rootCas : List CommonCertificate
  jwtSigningKeys : List CommonPublicKey
  sequenceNumber : Nat
  deriving DecidableEq, Repr

/-- proto types.X509Certificate: an X.509 authority in an API response. -/
structure TypesX509Certificate where
  asn1 : Bytes
  deriving DecidableEq, Repr

/-- proto types.JWTKey: a JWT authority in an API response. -/
structure TypesJWTKey where
  publicKey : Bytes
  keyId : String
  expiresAt : Int
  deriving DecidableEq, Repr

/-- proto types.Bundle: the bundle view returned by the service.  Absent
fields hold their zero values (empty string, 0, empty list). -/
structure TypesBundle where
  trustDomain : String
  refreshHint : Int
  sequenceNumber : Nat
  x509Authorities : List TypesX509Certificate
  jwtAuthorities : List TypesJWTKey
  deriving DecidableEq, Repr

/-- proto types.BundleMask: five independent boolean flags. -/
structure BundleMask where
  trustDomain : Bool
  refreshHint : Bool
  sequenceNumber : Bool
  x509Authorities : Bool
  jwtAuthorities : Bool
  deriving DecidableEq, Repr

/-- The package-level `defaultMask` of service.go: all five flags true. -/
def defaultMask : BundleMask :=
  { trustDomain := true
    refreshHint := true
    sequenceNumber := true
    x509Authorities := true
    jwtAuthorities := true }

/-- proto types.Status, as built by `api.CreateStatus`. -/
structure TypesStatus where
  code : StatusCode
  message : String
  deriving DecidableEq, Repr

/-- Model of `api.CreateStatus`: builds a types.Status from a code and message. -/
def CreateStatus (code : StatusCode) (message : String) : TypesStatus :=
  { code := code, message := message }

/-- Model of `api.StatusFromError`: a nil error yields a nil status; otherwise
the error is parsed as a gRPC status (every error produced by the service is
already a status error) and converted with `CreateStatus`. -/
def StatusFromError (err : Option GrpcStatus) : Option TypesStatus :=
  match err with
  | none => none
  | some e => some (CreateStatus e.code e.message)

/-- Datastore calls issued by the service, recorded for the claims about
which repository operations run and with which keys. -/
inductive DeleteMode where
  | restrict
  | del
  | dissociate
  deriving DecidableEq, Repr

/-- A single call made to the datastore, with the arguments the service passed. -/
inductive DSCall where
  | fetchBundle (trustDomainId : String)
  | listBundles
  | deleteBundle (trustDomainId : String) (mode : DeleteMode)
  deriving DecidableEq, Repr

/-- datastore.Pagination: page size and continuation token. -/
structure Pagination where
  pageSize : Int
  token : String
  deriving DecidableEq, Repr

/-- datastore.ListBundlesResponse: the bundles in repository order plus the
(optional) pagination echo carrying the continuation token. -/
structure ListBundlesResp where
  bundles : List CommonBundle
  pagination : Option Pagination
  deriving DecidableEq, Repr

/-- Behavioural model of the external datastore collaborator: what each
repository operation would return for a given key.  `fetchBundle` may fail
(error message) or return the bundle or nothing; `deleteBundle` returns an
error message or succeeds; `listBundles` answers a pagination request. -/
structure DataStoreModel where
  fetchBundle : String → Except String (Option CommonBundle)
  deleteBundle : String → Option String
  listBundles : Option Pagination → Except String ListBundlesResp

/-- The body of `applyMask` once the nil mask has been replaced: each
content field is copied into the fresh view iff its flag is set,
re-parsing the stored trust-domain id when the trustDomain flag is set
(parse failure fails the whole call); the sequence number is written as
zero when its flag is set and keeps its zero value otherwise. -/
def applyMaskWith (b : CommonBundle) (mask : BundleMask) : Option TypesBundle :=
  match
    if mask.trustDomain then (trustDomainFromString b.trustDomainId).map TrustDomain.toStr
    else some ("")
  with
  | none => none
  | some tdStr =>
    some
      { trustDomain := tdStr
        refreshHint := if mask.refreshHint then b.refreshHint else 0
        sequenceNumber := if mask.sequenceNumber then 0 else 0
        x509Authorities :=
          if mask.x509Authorities then b.rootCas.map (fun c => { asn1 := c.derBytes })
          else []
        jwtAuthorities :=
          if mask.jwtAuthorities then
            b.jwtSigningKeys.map
              (fun k => { publicKey := k.pkixBytes, keyId := k.kid, expiresAt := k.notAfter })
          else [] }

/-- Model of `applyMask` (service.go): a nil mask is replaced by the
package-level `defaultMask`, then the mask is applied field by field. -/
def applyMask (b : CommonBundle) (maskOpt : Option BundleMask) : Option TypesBundle :=
  applyMaskWith b (maskOpt.getD defaultMask)

/-- Model of `Service.GetBundle`: fetch the server's own bundle by the URI
form `s.td.IDString()` of its trust domain, mapping a repository failure to
Internal, an absent bundle to NotFound, and otherwise applying the mask.
The second component records the datastore calls made. -/
def getBundle (ownTd : TrustDomain) (ds : DataStoreModel) (mask : Option BundleMask) :
    Except GrpcStatus TypesBundle × List DSCall :=
  match ds.fetchBundle ownTd.idString with
  | .error e =>
    (.error { code := .internal, message := ("failed to fetch bundle: ") ++ e },
      [.fetchBundle ownTd.idString])
  | .ok none =>
    (.error { code := .notFound, message := ("bundle not found") },
      [.fetchBundle ownTd.idString])
  | .ok (some b) =>
    match applyMask b mask with
    | none =>
      (.error { code := .internal, message := ("failed to apply mask") },
        [.fetchBundle ownTd.idString])
    | some v => (.ok v, [.fetchBundle ownTd.idString])

/-- Model of `Service.GetFederatedBundle`: parse the trust-domain argument
(failure is InvalidArgument, before any repository call); reject the
server's own domain with InvalidArgument (again before any repository
call); otherwise fetch by the URI form `td.IDString()` and proceed as in
GetBundle.  The second component records the datastore calls made. -/
def getFederatedBundle (ownTd : TrustDomain) (ds : DataStoreModel)
    (trustDomain : String) (mask : Option BundleMask) :
    Except GrpcStatus TypesBundle × List DSCall :=
  match trustDomainFromString trustDomain with
  | none =>
    (.error { code := .invalidArgument,
              message := ("trust domain argument is not a valid SPIFFE ID: ") ++ trustDomain },
      [])
  | some td =>
    if td = ownTd then
      (.error { code := .invalidArgument,
                message := td.toStr ++ (" is this server own trust domain, use GetBundle RPC instead") },
        [])
    else
      match ds.fetchBundle td.idString with
      | .error e =>
        (.error { code := .internal, message := ("failed to fetch bundle: ") ++ e },
          [.fetchBundle td.idString])
      | .ok none =>
        (.error { code := .notFound,
                  message := ("bundle for ") ++ trustDomain ++ (" not found") },
          [.fetchBundle td.idString])
      | .ok (some b) =>
        match applyMask b mask with
        | none =>
          (.error { code := .internal, message := ("failed to apply mask") },
            [.fetchBundle td.idString])
        | some v => (.ok v, [.fetchBundle td.idString])

/-- The federated-bundle list response assembled by ListFederatedBundles. -/
structure ListFedResp where
  bundles : List TypesBundle
  nextPageToken : String
  deriving DecidableEq, Repr

/-- The per-bundle loop of `Service.ListFederatedBundles`: in repository
order, parse each stored trust-domain id (failure aborts the whole call
with Internal), silently skip the bundle equal to the server's own domain,
and apply the mask to the rest (mask failure also aborts with Internal). -/
def processBundles (ownTd : TrustDomain) (mask : Option BundleMask) :
    List CommonBundle → Except GrpcStatus (List TypesBundle)
  | [] => .ok []
  | b :: rest =>
    match trustDomainFromString b.trustDomainId with
    | none =>
      .error { code := .internal,
               message := ("bundle has an invalid trust domain ID: ") ++ b.trustDomainId }
    | some td =>
      if td = ownTd then processBundles ownTd mask rest
      else
        match applyMask b mask with
        | none => .error { code := .internal, message := ("failed to apply mask") }
        | some v =>
          match processBundles ownTd mask rest with
          | .error e => .error e
          | .ok vs => .ok (v :: vs)

/-- Model of `Service.ListFederatedBundles`: pagination parameters are
forwarded to the repository only when pageSize > 0; a repository failure is
Internal; the continuation token is echoed when the repository returned
pagination; the bundles are processed by `processBundles`. -/
def listFederatedBundles (ownTd : TrustDomain) (ds : DataStoreModel)
    (pageSize : Int) (pageToken : String) (mask : Option BundleMask) :
    Except GrpcStatus ListFedResp :=
  match ds.listBundles
      (if pageSize > 0 then some { pageSize := pageSize, token := pageToken } else none) with
  | .error e => .error { code := .internal, message := ("failed to list bundles: ") ++ e }
  | .ok dsResp =>
    match processBundles ownTd mask dsResp.bundles with
    | .error e => .error e
    | .ok bs =>
      .ok { bundles := bs
            nextPageToken :=
              match dsResp.pagination with
              | some p => p.token
              | none => ("") }

/-- Model of `Service.deleteFederatedBundle` (the per-item helper): parse
the input (failure is a per-item InvalidArgument with no repository call);
reject the server's own domain (per-item InvalidArgument, no repository
call); otherwise call the repository delete in RESTRICT mode with the
plain canonical name `td.String()` as key, wrapping any repository failure
as Internal.  The parse-error text of the external library is modelled as
an `unable to parse` message.  The second component records the datastore
calls made. -/
def deleteFederatedBundle (ownTd : TrustDomain) (ds : DataStoreModel)
    (trustDomain : String) : Option GrpcStatus × List DSCall :=
  match trustDomainFromString trustDomain with
  | none =>
    (some { code := .invalidArgument,
            message := ("malformed trust domain: spiffeid: unable to parse: ") ++ trustDomain },
      [])
  | some td =>
    if td = ownTd then
      (some { code := .invalidArgument, message := ("no possible to delete server bundle") }, [])
    else
      match ds.deleteBundle td.toStr with
      | some errMsg =>
        (some { code := .internal,
                message := ("failed to delete Federated Bundle: ") ++ errMsg },
          [.deleteBundle td.toStr .restrict])
      | none => (none, [.deleteBundle td.toStr .restrict])

/-- One result of a batch delete: the per-item status built by
`api.StatusFromError` (nil on per-item success) and the echoed input string. -/
structure BatchDeleteResult where
  status : Option TypesStatus
  trustDomain : String
  deriving DecidableEq, Repr

/-- Model of `Service.BatchDeleteFederatedBundle`: an empty input fails the
whole call with InvalidArgument before any repository interaction;
otherwise every input item is processed by `deleteFederatedBundle` in input
order and the call succeeds with one result per item.  The second component
records the datastore calls made, in order. -/
def batchDeleteFederatedBundle (ownTd : TrustDomain) (ds : DataStoreModel)
    (trustDomains : List String) :
    Except GrpcStatus (List BatchDeleteResult) × List DSCall :=
  if trustDomains = [] then
    (.error { code := .invalidArgument, message := ("request missing trust domains") }, [])
  else
    let pairs := trustDomains.map (fun td =>
      let r := deleteFederatedBundle ownTd ds td
      (({ status := StatusFromError r.1, trustDomain := td } : BatchDeleteResult), r.2))
    (.ok (pairs.map Prod.fst), (pairs.map Prod.snd).flatten)

/-- proto common.Selector: a typed selector, as used for capability checks. -/
structure Selector where
  type : String
  value : String
  deriving DecidableEq, Repr

/-- proto common.RegistrationEntry, restricted to the fields the verified
code can observe: the entry is carried opaquely by the pipe. -/
structure RegistrationEntry where
  spiffeId : String
  selectors : List Selector
  deriving DecidableEq, Repr

/-- An X.509 certificate (crypto/x509), carried opaquely as its raw bytes. -/
structure X509Certificate where
  raw : Bytes
  deriving DecidableEq, Repr

/-- A private signing key (crypto.Signer / ecdsa.PrivateKey), carried opaquely. -/
structure PrivateKey where
  d : Nat
  deriving DecidableEq, Repr

/-- bundleutil.Bundle, restricted to what the verified code observes: its
root CA certificates, as returned by `RootCAs()`. -/
structure BundleUtilBundle where
  rootCAs : List X509Certificate
  deriving DecidableEq, Repr

/-- pipe.SVIDUpdate: a storable SVID with its entry, chain, key and bundles. -/
structure SVIDUpdate where
  entry : RegistrationEntry
  svid : List X509Certificate
  privateKey : PrivateKey
  bundle : BundleUtilBundle
  federatedBundles : List (String × BundleUtilBundle)
  deriving DecidableEq, Repr

/-- Model of the Go `strings.ToLower`: lowercase every character. -/
def stringToLower (s : String) : String := String.mk (s.data.map Char.toLower)

/-- Modelled from the spec: the well-known storage-capability marker
`svidstore.Type` of the agent svidstore plugin package, which is not part
of the sources in scope; the spec only calls it "a well-known
storage-capability marker", and it is modelled here as the plugin type
name. -/
def svidstoreType : String := ("SVIDStore")

/-- Model of `pipeIn.IsStorable`: scans the selectors and reports whether
one of them has exactly the lowercased marker as its type, comparing the
selector type verbatim (`s.Type == strings.ToLower(svidstore.Type)`). -/
def IsStorable (selectors : List Selector) : Bool :=
  selectors.any (fun s => s.type == stringToLower svidstoreType)

/-- The single step of the forwarding worker of `BufferedPipe` when it has
an item for the output buffer: the plain send succeeds when the buffer is
below capacity; otherwise the worker first receives (and discards) the
oldest queued item and then enqueues the new one. -/
def workerStep (cap : Nat) (buf : List SVIDUpdate) (item : SVIDUpdate) :
    List SVIDUpdate :=
  if buf.length < cap then buf ++ [item]
  else buf.drop 1 ++ [item]

/-- One iteration of the forwarding worker's loop body on a value received
from the intake: a nil update is skipped (`continue`); a real update is
forwarded to the output buffer by `workerStep`. -/
def workerForward (cap : Nat) (buf : List SVIDUpdate) (ev : Option SVIDUpdate) :
    List SVIDUpdate :=
  match ev with
  | none => buf
  | some u => workerStep cap buf u

/-- Events acting on the output buffer: the worker enqueueing an update, or
the consumer receiving one. -/
inductive PipeEv where
  | push (u : SVIDUpdate)
  | take
  deriving DecidableEq, Repr

/-- A single event applied to the output buffer. -/
def pipeStep (cap : Nat) (buf : List SVIDUpdate) (e : PipeEv) : List SVIDUpdate :=
  match e with
  | .push u => workerStep cap buf u
  | .take => buf.drop 1

/-- The output buffer after an arbitrary interleaving of worker enqueues
and consumer receives, starting from the empty buffer of a fresh pipe. -/
def pipeRun (cap : Nat) (evs : List PipeEv) : List SVIDUpdate :=
  evs.foldl (pipeStep cap) []

/-- The observable outcome of `pipeIn.Push` (a select over the intake send
and the done channel): the event is handed to the intake, or the push is
cancelled because the pipe was closed.  The Go code never inspects the
event before sending it. -/
inductive PushOutcome where
  | handedToIntake (event : Option SVIDUpdate)
  | cancelledByClose
  deriving DecidableEq, Repr

/-- Model of `pipeIn.Push`: on an open pipe the event — nil or not — is
handed to the intake (the producer blocking until the worker accepts it);
on a closed pipe the push returns without handing anything over. -/
def pipeInPush (closed : Bool) (event : Option SVIDUpdate) : PushOutcome :=
  if closed then PushOutcome.cancelledByClose else PushOutcome.handedToIntake event

/-- The rotator `State` snapshot: the current SVID chain and private key. -/
structure State where
  svid : List X509Certificate
  key : PrivateKey
  deriving DecidableEq, Repr

/-- Model of the `KeysAndBundle` closure of `newRotator`
(rotator_config.go): read the current credential snapshot and the current
bundle-map snapshot, look up the configured trust domain, and return the
chain, the key and the root CAs — an absent trust domain yields an empty
root-CA set. -/
def keysAndBundle (state : State) (bundles : String → Option BundleUtilBundle)
    (trustDomain : String) :
    List X509Certificate × PrivateKey × List X509Certificate :=
  let rootCAs :=
    match bundles trustDomain with
    | some b => b.rootCAs
    | none => []
  (state.svid, state.key, rootCAs)

/-! Concrete fixtures used by the witnesses. -/

/-- A trivial datastore in which every fetch finds nothing, every delete
succeeds and listing returns no bundles. -/
def dsTriv : DataStoreModel :=
  { fetchBundle := fun _ => .ok none
    deleteBundle := fun _ => none
    listBundles := fun _ => .ok { bundles := [], pagination := none } }

/-- A concrete federated bundle stored under the URI form of its id. -/
def exBundle : CommonBundle :=
  { trustDomainId := ("spiffe://another-example.org")
    refreshHint := 60
    rootCas := [{ derBytes := [1, 2] }]
    jwtSigningKeys := [{ kid := ("key-id-0"), notAfter := 1590514224, pkixBytes := [3] }]
    sequenceNumber := 42 }

/-- A stored bundle whose trust-domain id does not parse. -/
def exBadBundle : CommonBundle :=
  { trustDomainId := ("invalid TD")
    refreshHint := 60
    rootCas := []
    jwtSigningKeys := []
    sequenceNumber := 0 }

/-- A datastore whose listing returns one corrupt record. -/
def dsBadList : DataStoreModel :=
  { fetchBundle := fun _ => .ok none
    deleteBundle := fun _ => none
    listBundles := fun _ => .ok { bundles := [exBadBundle], pagination := none } }

/-- The datastore of the mixed batch-delete scenario: deleting
`notfound.org` fails because the bundle is absent (the repository reports
the status error `no such bundle`), every other delete succeeds. -/
def dsC1 : DataStoreModel :=
  { fetchBundle := fun _ => .ok none
    deleteBundle := fun id => if id = ("notfound.org") then some ("no such bundle") else none
    listBundles := fun _ => .ok { bundles := [], pagination := none } }

/-- A concrete SVID update. -/
def exUpdate : SVIDUpdate :=
  { entry := { spiffeId := ("spiffe://example.org/workload"), selectors := [] }
    svid := [{ raw := [1] }]
    privateKey := { d := 1 }
    bundle := { rootCAs := [] }
    federatedBundles := [] }

/-- A second concrete SVID update, distinct from the first. -/
def exUpdate2 : SVIDUpdate :=
  { exUpdate with privateKey := { d := 2 } }

/-! Claim theorems. -/

/-- C2: for every bundle and every mask (a nil mask being treated as the
default all-true mask), as long as the stored trust-domain id parses, each
of the four content fields of the masked view is populated iff its flag is
true, and the output sequence number is zero regardless of the stored
sequence number and of the sequenceNumber flag. -/
theorem applyMask_populates_iff_flag (b : CommonBundle) (maskOpt : Option BundleMask)
    (td : TrustDomain) (h : trustDomainFromString b.trustDomainId = some td) :
    applyMask b maskOpt =
      some
        { trustDomain :=
            if (maskOpt.getD defaultMask).trustDomain then td.toStr else ("")
          refreshHint :=
            if (maskOpt.getD defaultMask).refreshHint then b.refreshHint else 0
          sequenceNumber := 0
          x509Authorities :=
            if (maskOpt.getD defaultMask).x509Authorities then
              b.rootCas.map (fun c => { asn1 := c.derBytes })
            else []
          jwtAuthorities :=
            if (maskOpt.getD defaultMask).jwtAuthorities then
              b.jwtSigningKeys.map
                (fun k => { publicKey := k.pkixBytes, keyId := k.kid, expiresAt := k.notAfter })
            else [] } := by
  unfold applyMask applyMaskWith
  by_cases hm : (maskOpt.getD defaultMask).trustDomain
  · simp [hm, h]
  · simp [hm]

/-- Witness for C2 at a concrete bundle and the absent mask. -/
theorem applyMask_populates_iff_flag_witness :
    trustDomainFromString exBundle.trustDomainId = some ⟨("another-example.org")⟩ ∧
    applyMask exBundle none =
      some
        { trustDomain := ("another-example.org")
          refreshHint := 60
          sequenceNumber := 0
          x509Authorities := [{ asn1 := [1, 2] }]
          jwtAuthorities := [{ publicKey := [3], keyId := ("key-id-0"), expiresAt := 1590514224 }] } := by
  refine ⟨by decide, ?_⟩
  rw [applyMask_populates_iff_flag exBundle none ⟨("another-example.org")⟩ (by decide)]
  decide

/-- C3: for every mask and every repository state, GetFederatedBundle
called with a string that fails to parse, or that parses canonically equal
to the server's own trust domain, fails with InvalidArgument and performs
no repository call. -/
theorem getFederatedBundle_rejects_invalid_and_own (ownTd : TrustDomain)
    (ds : DataStoreModel) (s : String) (mask : Option BundleMask)
    (h : trustDomainFromString s = none ∨ trustDomainFromString s = some ownTd) :
    ∃ e, (getFederatedBundle ownTd ds s mask).1 = .error e ∧
      e.code = .invalidArgument ∧ (getFederatedBundle ownTd ds s mask).2 = [] := by
  rcases h with h | h
  · simp only [getFederatedBundle, h]
    exact ⟨_, rfl, rfl, trivial⟩
  · simp only [getFederatedBundle, h, if_pos]
    exact ⟨_, rfl, rfl, trivial⟩

/-- Witness for C3: the server's own trust domain is rejected without a fetch. -/
theorem getFederatedBundle_rejects_witness :
    (trustDomainFromString ("example.org") = none ∨
      trustDomainFromString ("example.org") = some ⟨("example.org")⟩) ∧
    ∃ e, (getFederatedBundle ⟨("example.org")⟩ dsTriv ("example.org") none).1 = .error e ∧
      e.code = .invalidArgument ∧
      (getFederatedBundle ⟨("example.org")⟩ dsTriv ("example.org") none).2 = [] :=
  ⟨Or.inr (by decide),
    getFederatedBundle_rejects_invalid_and_own ⟨("example.org")⟩ dsTriv ("example.org") none
      (Or.inr (by decide))⟩

/-- C4: BatchDeleteFederatedBundle fails as a whole iff its input is
empty: an empty input yields InvalidArgument with zero repository calls,
and any non-empty input yields a successful call with exactly one per-item
result per input string, in input order. -/
theorem batchDeleteFederatedBundle_fails_iff_empty (ownTd : TrustDomain)
    (ds : DataStoreModel) (tds : List String) :
    (tds = [] →
      (batchDeleteFederatedBundle ownTd ds tds).1 =
        .error { code := .invalidArgument, message := ("request missing trust domains") } ∧
      (batchDeleteFederatedBundle ownTd ds tds).2 = []) ∧
    (tds ≠ [] → ∃ rs,
      (batchDeleteFederatedBundle ownTd ds tds).1 = .ok rs ∧
      rs.map BatchDeleteResult.trustDomain = tds) := by
  constructor
  · intro h
    subst h
    exact ⟨rfl, rfl⟩
  · intro h
    unfold batchDeleteFederatedBundle
    rw [if_neg h]
    refine ⟨_, rfl, ?_⟩
    rw [List.map_map, List.map_map]
    exact List.map_id tds

/-- Witness for C4 at a concrete non-empty input. -/
theorem batchDeleteFederatedBundle_fails_iff_empty_witness :
    ([("td1.org")] : List String) ≠ [] ∧
    ∃ rs, (batchDeleteFederatedBundle ⟨("example.org")⟩ dsTriv [("td1.org")]).1 = .ok rs ∧
      rs.map BatchDeleteResult.trustDomain = [("td1.org")] :=
  ⟨by decide,
    (batchDeleteFederatedBundle_fails_iff_empty ⟨("example.org")⟩ dsTriv [("td1.org")]).2
      (by decide)⟩

/-- C1: evaluation of BatchDeleteFederatedBundle on the claim's scenario —
`malformed TD` does not parse, deleting `td1.org` succeeds, and
`notfound.org` is absent (its repository delete fails with the status
error `no such bundle`).  The call succeeds with three results in input
order, but the per-item statuses are InvalidArgument, a nil status (not
OK: `api.StatusFromError` maps a nil error to a nil status), and Internal
(not NotFound: `deleteFederatedBundle` wraps every repository failure,
including absence, as Internal).  The repository's own test expectations
(`{OK, "OK"}` and `{NotFound, "no such bundle"}`) disagree with this
behaviour, so the claim describes the intent and the code diverges. -/
theorem batchDelete_mixed_inputs_eval :
    (batchDeleteFederatedBundle ⟨("example.org")⟩ dsC1
        [("malformed TD"), ("td1.org"), ("notfound.org")]).1 =
      .ok
        [ { status := some
              { code := .invalidArgument
                message := ("malformed trust domain: spiffeid: unable to parse: malformed TD") }
            trustDomain := ("malformed TD") },
          { status := none, trustDomain := ("td1.org") },
          { status := some
              { code := .internal
                message := ("failed to delete Federated Bundle: no such bundle") }
            trustDomain := ("notfound.org") } ] := by decide

/-- Each enqueue step of the forwarding worker keeps the output buffer
within its capacity. -/
theorem workerStep_length_le (cap : Nat) (buf : List SVIDUpdate) (item : SVIDUpdate)
    (hcap : 1 ≤ cap) (hbuf : buf.length ≤ cap) :
    (workerStep cap buf item).length ≤ cap := by
  unfold workerStep
  by_cases hlt : buf.length < cap
  · rw [if_pos hlt]
    simp only [List.length_append, List.length_singleton]
    omega
  · rw [if_neg hlt]
    simp only [List.length_append, List.length_singleton, List.length_drop]
    omega

/-- Any interleaving of worker enqueues and consumer receives keeps the
output buffer within its capacity. -/
theorem pipeRun_foldl_le (cap : Nat) (hcap : 1 ≤ cap) :
    ∀ (evs : List PipeEv) (buf : List SVIDUpdate), buf.length ≤ cap →
      (evs.foldl (pipeStep cap) buf).length ≤ cap := by
  intro evs
  induction evs with
  | nil =>
    intro buf h
    simpa using h
  | cons e rest ih =>
    intro buf h
    rw [List.foldl_cons]
    apply ih
    cases e with
    | push u => exact workerStep_length_le cap buf u hcap h
    | take =>
      simp only [pipeStep, List.length_drop]
      omega

/-- C5: for a pipe of capacity `N ≥ 1`, the output buffer never exceeds
`N` items under any interleaving of worker enqueues and consumer receives;
when the forwarding worker finds the buffer full it removes exactly the
oldest queued item and then enqueues the new one; and every hand-off
completes with the new item in the buffer, independent of the consumer. -/
theorem bufferedPipe_bounded_evicts_oldest (cap : Nat) (evs : List PipeEv)
    (buf : List SVIDUpdate) (item : SVIDUpdate)
    (hcap : 1 ≤ cap) (hbuf : buf.length ≤ cap) :
    (pipeRun cap evs).length ≤ cap ∧
    (workerStep cap buf item).length ≤ cap ∧
    (buf.length = cap → workerStep cap buf item = buf.tail ++ [item]) ∧
    item ∈ workerStep cap buf item := by
  refine ⟨pipeRun_foldl_le cap hcap evs [] (by simp),
    workerStep_length_le cap buf item hcap hbuf, ?_, ?_⟩
  · intro hfull
    unfold workerStep
    rw [if_neg (by omega), List.drop_one]
  · unfold workerStep
    by_cases hlt : buf.length < cap
    · rw [if_pos hlt]
      exact List.mem_append_right _ (List.mem_singleton_self item)
    · rw [if_neg hlt]
      exact List.mem_append_right _ (List.mem_singleton_self item)

/-- Witness for C5: a capacity-1 pipe with a full buffer evicts the queued
item and enqueues the new one. -/
theorem bufferedPipe_bounded_evicts_oldest_witness :
    (1 ≤ 1 ∧ ([exUpdate] : List SVIDUpdate).length ≤ 1) ∧
    ((pipeRun 1 [.push exUpdate, .push exUpdate2]).length ≤ 1 ∧
      (workerStep 1 [exUpdate] exUpdate2).length ≤ 1 ∧
      (([exUpdate] : List SVIDUpdate).length = 1 →
        workerStep 1 [exUpdate] exUpdate2 = ([exUpdate] : List SVIDUpdate).tail ++ [exUpdate2]) ∧
      exUpdate2 ∈ workerStep 1 [exUpdate] exUpdate2) :=
  ⟨⟨by decide, by decide⟩,
    bufferedPipe_bounded_evicts_oldest 1 [.push exUpdate, .push exUpdate2] [exUpdate] exUpdate2
      (by decide) (by decide)⟩

/-- The listing loop aborts with an Internal error whenever any bundle in
the repository's answer has an unparseable stored trust-domain id. -/
theorem processBundles_aborts_of_bad (ownTd : TrustDomain) (mask : Option BundleMask) :
    ∀ (l : List CommonBundle) (b : CommonBundle), b ∈ l →
      trustDomainFromString b.trustDomainId = none →
      ∃ e, processBundles ownTd mask l = .error e ∧ e.code = .internal := by
  intro l
  induction l with
  | nil =>
    intro b hb
    exact absurd hb (List.not_mem_nil b)
  | cons hd rest ih =>
    intro b hb hbad
    rcases List.mem_cons.mp hb with heq | hmem
    · subst heq
      unfold processBundles
      rw [hbad]
      exact ⟨_, rfl, rfl⟩
    · unfold processBundles
      split
      · exact ⟨_, rfl, rfl⟩
      next td hhd =>
        by_cases hown : td = ownTd
        · rw [if_pos hown]
          exact ih b hmem hbad
        · rw [if_neg hown]
          split
          · exact ⟨_, rfl, rfl⟩
          next v happ =>
            obtain ⟨e, he, hcode⟩ := ih b hmem hbad
            rw [he]
            exact ⟨e, rfl, hcode⟩

/-- C6: if the repository's listing answer contains any bundle whose
stored trust-domain id fails to parse, the whole ListFederatedBundles call
fails with Internal — the corrupt record is never skipped, so a successful
response implies every listed record had a parseable id. -/
theorem listFederatedBundles_fail_fast (ownTd : TrustDomain) (ds : DataStoreModel)
    (pageSize : Int) (pageToken : String) (mask : Option BundleMask)
    (resp : ListBundlesResp) (b : CommonBundle)
    (hds : ds.listBundles
        (if pageSize > 0 then some { pageSize := pageSize, token := pageToken } else none) =
      .ok resp)
    (hb : b ∈ resp.bundles)
    (hbad : trustDomainFromString b.trustDomainId = none) :
    ∃ e, listFederatedBundles ownTd ds pageSize pageToken mask = .error e ∧
      e.code = .internal := by
  unfold listFederatedBundles
  simp only [hds]
  obtain ⟨e, he, hcode⟩ := processBundles_aborts_of_bad ownTd mask resp.bundles b hb hbad
  simp only [he]
  exact ⟨e, rfl, hcode⟩

/-- Witness for C6: listing a repository holding one corrupt record fails
with Internal. -/
theorem listFederatedBundles_fail_fast_witness :
    (dsBadList.listBundles
        (if (0 : Int) > 0 then some { pageSize := 0, token := ("") } else none) =
      .ok { bundles := [exBadBundle], pagination := none } ∧
     exBadBundle ∈ ({ bundles := [exBadBundle], pagination := none } : ListBundlesResp).bundles ∧
     trustDomainFromString exBadBundle.trustDomainId = none) ∧
    ∃ e, listFederatedBundles ⟨("example.org")⟩ dsBadList 0 ("") none = .error e ∧
      e.code = .internal :=
  ⟨⟨by decide, by decide, by decide⟩,
    listFederatedBundles_fail_fast ⟨("example.org")⟩ dsBadList 0 ("") none
      { bundles := [exBadBundle], pagination := none } exBadBundle
      (by decide) (by decide) (by decide)⟩

/-- C7 counterexample: on an open pipe, `Push` hands a nil event to the
intake exactly like any other event — the nil is not dropped at the
producer side, so a `Push(nil)` blocks until the forwarding worker accepts
it, contrary to the claim that the nil is dropped at once without being
handed to the intake. -/
theorem push_nil_reaches_intake :
    pipeInPush false none = PushOutcome.handedToIntake none := rfl

/-- C7 as amended: `Push(nil)` is handed to the intake like any other
event (and is only skipped if the pipe is already closed); the nil is then
discarded by the forwarding worker, which never enqueues it, so the
consumer never observes a nil event on the output. -/
theorem push_nil_dropped_by_worker (cap : Nat) (buf : List SVIDUpdate) :
    workerForward cap buf none = buf ∧
    pipeInPush false none = PushOutcome.handedToIntake none ∧
    pipeInPush true none = PushOutcome.cancelledByClose :=
  ⟨rfl, rfl, rfl⟩

/-- C8 counterexample: a selector whose type differs from the
storage-capability marker only in letter case (here the all-uppercase
form, which lowercases to the same string as the marker but is not equal
to the lowercased marker) is not matched by IsStorable, so the comparison
is not case-insensitive on the selector side. -/
theorem isStorable_not_case_insensitive :
    IsStorable [{ type := ("SVIDSTORE"), value := ("whatever") }] = false ∧
    stringToLower ("SVIDSTORE") = stringToLower svidstoreType ∧
    ("SVIDSTORE") ≠ stringToLower svidstoreType :=
  ⟨by decide, by decide, by decide⟩

/-- C8 as amended: IsStorable is a pure predicate that is true iff at
least one selector's type equals — by exact, case-sensitive comparison —
the lowercased form of the storage-capability marker; only the marker is
lowercased, the selector type is compared verbatim. -/
theorem isStorable_matches_lowered_marker (selectors : List Selector) :
    IsStorable selectors = true ↔
      ∃ s ∈ selectors, s.type = stringToLower svidstoreType := by
  unfold IsStorable
  rw [List.any_eq_true]
  simp only [beq_iff_eq]

/-- C9: the credential accessor is total — for every credential snapshot
and bundle-map snapshot it returns the current chain and key, and a trust
domain absent from the bundle map yields an empty root-CA set rather than
an error. -/
theorem keysAndBundle_total (st : State) (bundles : String → Option BundleUtilBundle)
    (tdStr : String) :
    (keysAndBundle st bundles tdStr).1 = st.svid ∧
    (keysAndBundle st bundles tdStr).2.1 = st.key ∧
    (bundles tdStr = none → (keysAndBundle st bundles tdStr).2.2 = []) ∧
    (∀ b, bundles tdStr = some b → (keysAndBundle st bundles tdStr).2.2 = b.rootCAs) := by
  refine ⟨rfl, rfl, ?_, ?_⟩
  · intro h
    unfold keysAndBundle
    rw [h]
  · intro b h
    unfold keysAndBundle
    rw [h]

/-- Witness for C9 at a concrete snapshot whose trust domain is absent
from the bundle map. -/
theorem keysAndBundle_total_witness :
    (keysAndBundle { svid := [{ raw := [1] }], key := { d := 5 } }
        (fun _ => none) ("absent.org")).2.2 = [] ∧
    (keysAndBundle { svid := [{ raw := [1] }], key := { d := 5 } }
        (fun _ => none) ("absent.org")).1 = [{ raw := [1] }] :=
  ⟨(keysAndBundle_total { svid := [{ raw := [1] }], key := { d := 5 } }
      (fun _ => none) ("absent.org")).2.2.1 rfl,
    (keysAndBundle_total { svid := [{ raw := [1] }], key := { d := 5 } }
      (fun _ => none) ("absent.org")).1⟩

/-- C10: for one and the same parsed trust domain, the fetch operations
pass the URI form `IDString` (with the scheme prefix) to the repository,
while the per-item delete passes the plain canonical name `String`
(without the scheme), and these two keys always differ. -/
theorem delete_and_fetch_use_different_keys (ownTd td : TrustDomain)
    (ds : DataStoreModel) (s : String) (mask : Option BundleMask)
    (hparse : trustDomainFromString s = some td) (hne : td ≠ ownTd) :
    (getFederatedBundle ownTd ds s mask).2 = [.fetchBundle td.idString] ∧
    (deleteFederatedBundle ownTd ds s).2 = [.deleteBundle td.toStr .restrict] ∧
    (getBundle ownTd ds mask).2 = [.fetchBundle ownTd.idString] ∧
    td.idString ≠ td.toStr := by
  refine ⟨?_, ?_, ?_, ?_⟩
  · unfold getFederatedBundle
    simp only [hparse]
    rw [if_neg hne]
    split
    · rfl
    · rfl
    · split
      · rfl
      · rfl
  · unfold deleteFederatedBundle
    simp only [hparse]
    rw [if_neg hne]
    split
    · rfl
    · rfl
  · unfold getBundle
    split
    · rfl
    · rfl
    · split
      · rfl
      · rfl
  · intro hcontra
    have h2 := congrArg String.length hcontra
    unfold TrustDomain.idString TrustDomain.toStr at h2
    rw [String.length_append] at h2
    have h3 : (("spiffe://") : String).length = 9 := rfl
    omega

/-- Witness for C10 at a concrete federated trust domain. -/
theorem delete_and_fetch_use_different_keys_witness :
    (trustDomainFromString ("td1.org") = some ⟨("td1.org")⟩ ∧
      (⟨("td1.org")⟩ : TrustDomain) ≠ ⟨("example.org")⟩) ∧
    ((getFederatedBundle ⟨("example.org")⟩ dsTriv ("td1.org") none).2 =
        [.fetchBundle (TrustDomain.idString ⟨("td1.org")⟩)] ∧
      (deleteFederatedBundle ⟨("example.org")⟩ dsTriv ("td1.org")).2 =
        [.deleteBundle (TrustDomain.toStr ⟨("td1.org")⟩) .restrict] ∧
      (getBundle ⟨("example.org")⟩ dsTriv none).2 =
        [.fetchBundle (TrustDomain.idString ⟨("example.org")⟩)] ∧
      TrustDomain.idString ⟨("td1.org")⟩ ≠ TrustDomain.toStr ⟨("td1.org")⟩) :=
  ⟨⟨by decide, by decide⟩,
    delete_and_fetch_use_different_keys ⟨("example.org")⟩ ⟨("td1.org")⟩ dsTriv ("td1.org") none
      (by decide) (by decide)⟩

end SpireSpec
